import Mathlib

/-!
Shallow embedding of `pkg/steps/output_image_tag.go` from
github.com/openshift/ci-operator (vendored in this repository):
the `outputImageTagStep` with its operations `Inputs`, `Run`, `Done`,
`Requires`, `Creates`, `Provides` and the helpers `namespace` and
`imageStreamTag`.

The remote image-stream store is modelled as a `Client`: one response
function per API verb, each taking the list of store operations already
performed (so responses may vary over time, modelling a store that other
actors mutate concurrently).  Every operation of the step returns, next
to its result, the list of store operations it performed, so that
"performs no mutation" and "targets namespace N" are statable.

Go error values are modelled by `StoreErr` (the predicates
`errors.IsAlreadyExists`, `errors.IsConflict`, `errors.IsNotFound`
become constructor tests) and fatal step errors by `Except String`,
carrying the `fmt.Errorf` message with `%v` rendered by
`StoreErr.render`.
-/

set_option autoImplicit false

namespace OutputImageTag

/-- Model of `k8s.io/api/core/v1.ObjectReference` (the fields this file uses). -/
structure ObjectReference where
  Kind : String
  Name : String
  Namespace : String
deriving DecidableEq, Repr

/-- Model of `github.com/openshift/api/image/v1.TagReferencePolicy`; the Go field
is called `Type`, a reserved word here, hence `PolicyType`. -/
structure TagReferencePolicy where
  PolicyType : String
deriving DecidableEq, Repr

/-- The constant `imageapi.LocalTagReferencePolicy`. -/
def LocalTagReferencePolicy : String := "Local"

/-- Model of `github.com/openshift/api/image/v1.TagReference` (the fields this
file uses); `From` is a pointer in Go, hence `Option`. -/
structure TagReference where
  ReferencePolicy : TagReferencePolicy
  From : Option ObjectReference
deriving DecidableEq, Repr

/-- Model of `meta/v1.ObjectMeta` (the fields this file uses). -/
structure ObjectMeta where
  Name : String
  Namespace : String
  ResourceVersion : String
deriving DecidableEq, Repr

/-- Model of `imageapi.Image` (the field this file uses: `Name` via its
embedded object meta). -/
structure Image where
  Name : String
deriving DecidableEq, Repr

/-- Model of `imageapi.ImageStreamTag` (the fields this file uses).  `Tag` is a
pointer in Go, hence `Option`. -/
structure ImageStreamTag where
  ObjectMeta : ObjectMeta
  Tag : Option TagReference
  Image : Image
deriving DecidableEq, Repr

/-- Model of `imageapi.ImageStreamStatus` (the fields this file uses). -/
structure ImageStreamStatus where
  PublicDockerImageRepository : String
  DockerImageRepository : String
deriving DecidableEq, Repr

/-- Model of `imageapi.ImageStream` (the field this file uses). -/
structure ImageStream where
  Status : ImageStreamStatus
deriving DecidableEq, Repr

/-- Model of `api.ImageStreamTagReference` from ci-operator's `pkg/api`
(declaration not under src/; fields taken from their uses in
`output_image_tag.go`: `Namespace`, `Name`, `Tag`, `As`, and `From` is
a plain string type `PipelineImageStreamTagReference`). -/
structure ImageStreamTagReference where
  Namespace : String
  Name : String
  Tag : String
  As : String
deriving DecidableEq, Repr

/-- Model of `api.OutputImageTagStepConfiguration`. -/
structure OutputImageTagStepConfiguration where
  From : String
  To : ImageStreamTagReference
deriving DecidableEq, Repr

/-- Model of `api.JobSpec` (the field this file uses). -/
structure JobSpec where
  Namespace : String
deriving DecidableEq, Repr

/-- The constant `api.PipelineImageStream` (constant of ci-operator's `pkg/api`, not
under src/; its concrete value is immaterial to the claims). -/
def PipelineImageStream : String := "pipeline"

/-- The constant `api.StableImageStream` (same provenance as `PipelineImageStream`). -/
def StableImageStream : String := "stable"

/-- The error classes distinguished by `output_image_tag.go` via
`errors.IsAlreadyExists` / `errors.IsConflict` / `errors.IsNotFound`;
everything else is `other`. -/
inductive StoreErr where
  | alreadyExists
  | conflict
  | notFound
  | other (msg : String)
deriving DecidableEq, Repr

/-- The message a Go `%v` format of the store error produces. -/
def StoreErr.render : StoreErr → String
  | .alreadyExists => "already exists"
  | .conflict => "the object has been modified"
  | .notFound => "not found"
  | .other msg => msg

/-- One remote call performed by the step, with its target namespace,
and for the mutating verbs the full object sent. -/
inductive StoreOp where
  | istGet (ns name : String)
  | istCreate (ns : String) (obj : ImageStreamTag)
  | istUpdate (ns : String) (obj : ImageStreamTag)
  | isGet (ns name : String)
deriving DecidableEq, Repr

/-- The remote store (`ImageStreamTagsGetter` / `ImageStreamsGetter`
clients).  Each verb's response is a function of the operations already
performed, so a store concurrently mutated by others is expressible. -/
structure Client where
  istGet : List StoreOp → String → String → Except StoreErr ImageStreamTag
  istCreate : List StoreOp → String → ImageStreamTag → Except StoreErr ImageStreamTag
  istUpdate : List StoreOp → String → ImageStreamTag → Except StoreErr ImageStreamTag
  isGet : List StoreOp → String → String → Except StoreErr ImageStream

/-- Model of `api.InputDefinition` (`[]string`). -/
def InputDefinition := List String

/-- Model of the `api.StepLink` values produced by `api.InternalImageLink`,
`api.ExternalImageLink`, `api.ReleaseImagesLink`. -/
inductive StepLink where
  | internalImage (name : String)
  | externalImage (dest : ImageStreamTagReference)
  | releaseImages
deriving DecidableEq, Repr

/-- The step structure `outputImageTagStep`; the two clients are passed
to each operation instead of being stored. -/
structure OutputImageTagStep where
  config : OutputImageTagStepConfiguration
  jobSpec : JobSpec
deriving DecidableEq, Repr

/-- Model of `(*outputImageTagStep).namespace`. -/
def OutputImageTagStep.nameSpace (s : OutputImageTagStep) : String :=
  if s.config.To.Namespace.length ≠ 0 then s.config.To.Namespace
  else s.jobSpec.Namespace

/-- Model of `(*outputImageTagStep).imageStreamTag`: the desired resource built
from the configuration and the resolved source image name.  Fields the
Go literal leaves unset are the zero value `""`. -/
def OutputImageTagStep.imageStreamTag (s : OutputImageTagStep) (fromImage : String) :
    ImageStreamTag :=
  { ObjectMeta :=
      { Name := s.config.To.Name ++ ":" ++ s.config.To.Tag
      , Namespace := s.nameSpace
      , ResourceVersion := "" }
  , Tag := some
      { ReferencePolicy := { PolicyType := LocalTagReferencePolicy }
      , From := some
          { Kind := "ImageStreamImage"
          , Name := PipelineImageStream ++ "@" ++ fromImage
          , Namespace := s.jobSpec.Namespace } }
  , Image := { Name := "" } }

/-- Model of `(*outputImageTagStep).Inputs`: literally `return nil, nil`. -/
def OutputImageTagStep.inputs (_s : OutputImageTagStep) (_dry : Bool) :
    Option InputDefinition × Option String :=
  (none, none)

/-- Model of `(*outputImageTagStep).Requires`. -/
def OutputImageTagStep.requires (s : OutputImageTagStep) : List StepLink :=
  [StepLink.internalImage s.config.From, StepLink.releaseImages]

/-- Model of `(*outputImageTagStep).Creates`. -/
def OutputImageTagStep.creates (s : OutputImageTagStep) : List StepLink :=
  if s.config.To.As.length > 0 then
    [StepLink.externalImage s.config.To, StepLink.internalImage s.config.To.As]
  else
    [StepLink.externalImage s.config.To]

/-- Modelled from the spec: `retry.RetryOnConflict(retry.DefaultRetry, fn)`
of the vendored `k8s.io/client-go/util/retry` package, which is not under
src/.  Per the spec's §4.2/§7: the body runs under a bounded retry policy
with backoff; a conflict triggers a retry, any other outcome stops the
loop, and exhausting the bound returns the last conflict error (fatal for
the caller).  The backoff sleeps have no observable effect here; the bound
is `defaultRetrySteps`.  The body threads the store-operation log. -/
def retryOnConflict (fn : List StoreOp → Except StoreErr Unit × List StoreOp) :
    Nat → List StoreOp → Except StoreErr Unit × List StoreOp
  | 0, log => (Except.error StoreErr.conflict, log)
  | n + 1, log =>
    match fn log with
    | (Except.ok _, log2) => (Except.ok (), log2)
    | (Except.error e, log2) =>
      if e = StoreErr.conflict then retryOnConflict fn n log2
      else (Except.error e, log2)

/-- Modelled from the spec: the bound of `retry.DefaultRetry`
(`wait.Backoff.Steps`), "a bounded count with backoff". -/
def defaultRetrySteps : Nat := 5

/-- The closure `Run` passes to `retry.RetryOnConflict`: fetch the
existing imagestreamtag (at the desired object's own namespace/name),
copy only its `ResourceVersion` onto the desired object, and attempt
the update at the target namespace.  The Go closure mutates `ist` in
place; since only `ResourceVersion` is overwritten, rebuilding it from
the unchanged base each attempt is the same function. -/
def OutputImageTagStep.runUpdateBody (s : OutputImageTagStep) (c : Client)
    (ist : ImageStreamTag) (log : List StoreOp) :
    Except StoreErr Unit × List StoreOp :=
  let opGet := StoreOp.istGet ist.ObjectMeta.Namespace ist.ObjectMeta.Name
  match c.istGet log ist.ObjectMeta.Namespace ist.ObjectMeta.Name with
  | Except.error e2 => (Except.error e2, log ++ [opGet])
  | Except.ok existingIst =>
    let ist2 := { ist with ObjectMeta :=
      { ist.ObjectMeta with
        ResourceVersion := existingIst.ObjectMeta.ResourceVersion } }
    let opUpdate := StoreOp.istUpdate s.nameSpace ist2
    match c.istUpdate (log ++ [opGet]) s.nameSpace ist2 with
    | Except.error e3 => (Except.error e3, log ++ [opGet, opUpdate])
    | Except.ok _ => (Except.ok (), log ++ [opGet, opUpdate])

/-- Model of `(*outputImageTagStep).Run`.  The `log.Printf` calls touch no store
and carry no result, and are elided.  In dry mode `fromImage` keeps its
initial value `"dry-fake"`, the desired object is marshalled and printed
(`json.MarshalIndent` cannot fail on this struct), and Run returns nil
without any store call. -/
def OutputImageTagStep.run (s : OutputImageTagStep) (c : Client) (dry : Bool) :
    Except String Unit × List StoreOp :=
  if dry then
    let _ist := s.imageStreamTag "dry-fake"
    (Except.ok (), [])
  else
    let srcName := PipelineImageStream ++ ":" ++ s.config.From
    let opResolve := StoreOp.istGet s.jobSpec.Namespace srcName
    match c.istGet [] s.jobSpec.Namespace srcName with
    | Except.error e =>
      (Except.error ("could not resolve base image: " ++ e.render), [opResolve])
    | Except.ok fromIst =>
      let fromImage := fromIst.Image.Name
      let ist := s.imageStreamTag fromImage
      let opCreate := StoreOp.istCreate s.nameSpace ist
      match c.istCreate [opResolve] s.nameSpace ist with
      | Except.ok _ => (Except.ok (), [opResolve, opCreate])
      | Except.error e =>
        if e = StoreErr.alreadyExists then
          match retryOnConflict (s.runUpdateBody c ist) defaultRetrySteps
              [opResolve, opCreate] with
          | (Except.error e4, log3) =>
            (Except.error ("could not update output imagestreamtag: " ++ e4.render), log3)
          | (Except.ok _, log3) => (Except.ok (), log3)
        else
          (Except.error ("could not create output imagestreamtag: " ++ e.render),
            [opResolve, opCreate])

/-- Model of `(*outputImageTagStep).Done`.  Go returns `(bool, error)` with the
bool false whenever the error is non-nil; this is collapsed into
`Except String Bool`.  The final comparison is
`equality.Semantic.DeepEqual(ist.Tag, desiredIst.Tag)`, which on this
pointer-to-struct-of-strings type is structural equality. -/
def OutputImageTagStep.done (s : OutputImageTagStep) (c : Client) :
    Except String Bool × List StoreOp :=
  let toNamespace := s.nameSpace
  let tgtName := s.config.To.Name ++ ":" ++ s.config.To.Tag
  let opTgt := StoreOp.istGet toNamespace tgtName
  match c.istGet [] toNamespace tgtName with
  | Except.error e =>
    if e = StoreErr.notFound then (Except.ok false, [opTgt])
    else (Except.error ("could not retrieve output imagestreamtag: " ++ e.render), [opTgt])
  | Except.ok ist =>
    let srcName := PipelineImageStream ++ ":" ++ s.config.From
    let opSrc := StoreOp.istGet s.jobSpec.Namespace srcName
    match c.istGet [opTgt] s.jobSpec.Namespace srcName with
    | Except.error e =>
      (Except.error ("could not resolve base image: " ++ e.render), [opTgt, opSrc])
    | Except.ok fromIst =>
      let desiredIst := s.imageStreamTag fromIst.Image.Name
      (Except.ok (decide (ist.Tag = desiredIst.Tag)), [opTgt, opSrc])

/-- The parameter name `fmt.Sprintf("IMAGE_%s", strings.ToUpper(strings.Replace(as, "-", "_", -1)))`. -/
def OutputImageTagStep.paramName (s : OutputImageTagStep) : String :=
  "IMAGE_" ++ (s.config.To.As.replace "-" "_").toUpper

/-- The provider closure built inside `(*outputImageTagStep).Provides`:
reads the backing image stream and picks the registry address. -/
def OutputImageTagStep.imageParam (s : OutputImageTagStep) (c : Client) :
    Except String String × List StoreOp :=
  let op := StoreOp.isGet s.nameSpace s.config.To.Name
  match c.isGet [] s.nameSpace s.config.To.Name with
  | Except.error e =>
    (Except.error ("could not retrieve output imagestream: " ++ e.render), [op])
  | Except.ok is =>
    let registry : Except String String :=
      if is.Status.PublicDockerImageRepository.length > 0 then
        Except.ok is.Status.PublicDockerImageRepository
      else if is.Status.DockerImageRepository.length > 0 then
        Except.ok is.Status.DockerImageRepository
      else
        Except.error ("image stream " ++ s.config.To.As ++ " has no accessible image registry value")
    match registry with
    | Except.error msg => (Except.error msg, [op])
    | Except.ok registry => (Except.ok (registry ++ ":" ++ s.config.To.Tag), [op])

/-- Model of `api.ParameterMap` restricted to this step: at most one named entry. -/
def ParameterMap := List (String × (Client → Except String String × List StoreOp))

/-- Model of `(*outputImageTagStep).Provides`: `nil, nil` when `To.As` is empty,
otherwise the single-entry map and the external image link. -/
def OutputImageTagStep.provides (s : OutputImageTagStep) :
    Option ParameterMap × Option StepLink :=
  if s.config.To.As.length = 0 then (none, none)
  else (some [(s.paramName, s.imageParam)], some (StepLink.externalImage s.config.To))

/-! Concrete sample data used to instantiate the theorems below. -/

/-- A sample step: tag `pipeline:bin` of namespace `job-ns` into
`target-ns/stable:latest`, exported as `my-image`. -/
def sampleStep : OutputImageTagStep :=
  { config :=
      { From := "bin"
      , To := { Namespace := "target-ns", Name := "stable", Tag := "latest", As := "my-image" } }
  , jobSpec := { Namespace := "job-ns" } }

/-- The same step without an export name (`To.As` empty). -/
def sampleStepNoAs : OutputImageTagStep :=
  { config :=
      { From := "bin"
      , To := { Namespace := "target-ns", Name := "stable", Tag := "latest", As := "" } }
  , jobSpec := { Namespace := "job-ns" } }

/-- The resolved source imagestreamtag `pipeline:bin`, backed by image
`sha256:abc`. -/
def srcIst : ImageStreamTag :=
  { ObjectMeta := { Name := "pipeline:bin", Namespace := "job-ns", ResourceVersion := "42" }
  , Tag := none
  , Image := { Name := "sha256:abc" } }

/-- An alternative source imagestreamtag, backed by image `sha256:def`. -/
def srcIst2 : ImageStreamTag :=
  { ObjectMeta := { Name := "pipeline:bin", Namespace := "job-ns", ResourceVersion := "43" }
  , Tag := none
  , Image := { Name := "sha256:def" } }

/-- An existing remote copy of the target imagestreamtag (concurrency
token `7`, different tag contents). -/
def existingIst : ImageStreamTag :=
  { ObjectMeta := { Name := "stable:latest", Namespace := "target-ns", ResourceVersion := "7" }
  , Tag := none
  , Image := { Name := "" } }

/-- A client on which every call fails with a generic store error. -/
def failingGetClient : Client :=
  { istGet := fun _ _ _ => Except.error (StoreErr.other "backing store unreachable")
  , istCreate := fun _ _ _ => Except.error (StoreErr.other "backing store unreachable")
  , istUpdate := fun _ _ _ => Except.error (StoreErr.other "backing store unreachable")
  , isGet := fun _ _ _ => Except.error (StoreErr.other "backing store unreachable") }

/-- A client on which every imagestreamtag read reports NotFound. -/
def notFoundClient : Client :=
  { istGet := fun _ _ _ => Except.error StoreErr.notFound
  , istCreate := fun _ _ _ => Except.error (StoreErr.other "unused")
  , istUpdate := fun _ _ _ => Except.error (StoreErr.other "unused")
  , isGet := fun _ _ _ => Except.error StoreErr.notFound }

/-- A client for the update fallback: the source tag resolves, creation
reports AlreadyExists, the stored copy is fetched, and the update
succeeds. -/
def updateClient : Client :=
  { istGet := fun _ ns _ =>
      if ns = "job-ns" then Except.ok srcIst else Except.ok existingIst
  , istCreate := fun _ _ _ => Except.error StoreErr.alreadyExists
  , istUpdate := fun _ _ obj => Except.ok obj
  , isGet := fun _ _ _ => Except.error StoreErr.notFound }

/-- A client for retry exhaustion: like `updateClient` but every update
reports a concurrency conflict. -/
def conflictClient : Client :=
  { istGet := fun _ ns _ =>
      if ns = "job-ns" then Except.ok srcIst else Except.ok existingIst
  , istCreate := fun _ _ _ => Except.error StoreErr.alreadyExists
  , istUpdate := fun _ _ _ => Except.error StoreErr.conflict
  , isGet := fun _ _ _ => Except.error StoreErr.notFound }

/-- A client on which creation fails with an error that is not
AlreadyExists. -/
def badCreateClient : Client :=
  { istGet := fun _ ns _ =>
      if ns = "job-ns" then Except.ok srcIst else Except.ok existingIst
  , istCreate := fun _ _ _ => Except.error (StoreErr.other "quota exceeded")
  , istUpdate := fun _ _ obj => Except.ok obj
  , isGet := fun _ _ _ => Except.error StoreErr.notFound }

/-- The stored remote copy of the target tag whose `Tag` already equals
what `sampleStep` wants for source image `sha256:abc`, but whose
store-managed `ResourceVersion` (`"7"`) differs from the freshly built
desired object's (`""`). -/
def storedTargetIst : ImageStreamTag :=
  { sampleStep.imageStreamTag "sha256:abc" with ObjectMeta :=
    { (sampleStep.imageStreamTag "sha256:abc").ObjectMeta with ResourceVersion := "7" } }

/-- A store state in which the target tag exists and already matches
what `sampleStep` wants (source backed by `sha256:abc`), modulo the
concurrency token. -/
def inSyncClient : Client :=
  { istGet := fun _ ns _ =>
      if ns = "job-ns" then Except.ok srcIst
      else Except.ok storedTargetIst
  , istCreate := fun _ _ _ => Except.error StoreErr.alreadyExists
  , istUpdate := fun _ _ obj => Except.ok obj
  , isGet := fun _ _ _ => Except.error StoreErr.notFound }

/-- The same store state after the upstream source moved to
`sha256:def`; the stored target tag is unchanged. -/
def movedSourceClient : Client :=
  { istGet := fun _ ns _ =>
      if ns = "job-ns" then Except.ok srcIst2
      else Except.ok storedTargetIst
  , istCreate := fun _ _ _ => Except.error StoreErr.alreadyExists
  , istUpdate := fun _ _ obj => Except.ok obj
  , isGet := fun _ _ _ => Except.error StoreErr.notFound }

/-- A backing image stream with both registry address fields set. -/
def regIs : ImageStream :=
  { Status :=
      { PublicDockerImageRepository := "registry.example.com/target-ns/stable"
      , DockerImageRepository := "172.30.0.1:5000/target-ns/stable" } }

/-- A client whose image-stream read returns `regIs`. -/
def regClient : Client :=
  { istGet := fun _ _ _ => Except.error StoreErr.notFound
  , istCreate := fun _ _ _ => Except.error (StoreErr.other "unused")
  , istUpdate := fun _ _ _ => Except.error (StoreErr.other "unused")
  , isGet := fun _ _ _ => Except.ok regIs }

/-! Helper lemmas. -/

/-- Any run of `retryOnConflict` only appends to the operation log,
provided the body does. -/
lemma retryOnConflict_log_extends
    (fn : List StoreOp → Except StoreErr Unit × List StoreOp)
    (hfn : ∀ log, ∃ ext, (fn log).2 = log ++ ext) :
    ∀ (n : Nat) (log : List StoreOp),
      ∃ ext, (retryOnConflict fn n log).2 = log ++ ext := by
  intro n
  induction n with
  | zero => intro log; exact ⟨[], by simp [retryOnConflict]⟩
  | succ n ih =>
    intro log
    obtain ⟨ext, hext⟩ := hfn log
    rcases hfe : fn log with ⟨r, log2⟩
    rw [hfe] at hext
    simp at hext
    subst hext
    rcases r with e | u
    · by_cases hc : e = StoreErr.conflict
      · obtain ⟨ext2, hext2⟩ := ih (log ++ ext)
        exact ⟨ext ++ ext2, by simp [retryOnConflict, hfe, hc, hext2]⟩
      · exact ⟨ext, by simp [retryOnConflict, hfe, hc]⟩
    · exact ⟨ext, by simp [retryOnConflict, hfe]⟩

/-- The update body of `Run` only appends to the operation log. -/
lemma runUpdateBody_log_extends (s : OutputImageTagStep) (c : Client)
    (ist : ImageStreamTag) :
    ∀ log, ∃ ext, (s.runUpdateBody c ist log).2 = log ++ ext := by
  intro log
  rcases hg : c.istGet log ist.ObjectMeta.Namespace ist.ObjectMeta.Name with e | ex
  · exact ⟨[StoreOp.istGet ist.ObjectMeta.Namespace ist.ObjectMeta.Name],
      by simp [OutputImageTagStep.runUpdateBody, hg]⟩
  · rcases hu : c.istUpdate
        (log ++ [StoreOp.istGet ist.ObjectMeta.Namespace ist.ObjectMeta.Name]) s.nameSpace
        { ist with ObjectMeta :=
          { ist.ObjectMeta with ResourceVersion := ex.ObjectMeta.ResourceVersion } }
        with e | u
    · exact ⟨[StoreOp.istGet ist.ObjectMeta.Namespace ist.ObjectMeta.Name,
        StoreOp.istUpdate s.nameSpace
          { ist with ObjectMeta :=
            { ist.ObjectMeta with ResourceVersion := ex.ObjectMeta.ResourceVersion } }],
        by simp [OutputImageTagStep.runUpdateBody, hg, hu]⟩
    · exact ⟨[StoreOp.istGet ist.ObjectMeta.Namespace ist.ObjectMeta.Name,
        StoreOp.istUpdate s.nameSpace
          { ist with ObjectMeta :=
            { ist.ObjectMeta with ResourceVersion := ex.ObjectMeta.ResourceVersion } }],
        by simp [OutputImageTagStep.runUpdateBody, hg, hu]⟩

/-- Two desired resources built from different resolved source images
have different `Tag` fields: the image name is embedded in the tag's
`From.Name`. -/
lemma imageStreamTag_Tag_inj (s : OutputImageTagStep) (n1 n2 : String)
    (h : (s.imageStreamTag n1).Tag = (s.imageStreamTag n2).Tag) : n1 = n2 := by
  simp [OutputImageTagStep.imageStreamTag] at h
  have hd := congrArg String.data h
  simp [String.data_append] at hd
  exact String.ext hd

/-- Whatever the store answers, the first operation of a non-dry `Run`
is always the read resolving `pipeline:<from>` in the job namespace. -/
lemma run_nondry_head (s : OutputImageTagStep) (c : Client) :
    (s.run c false).2.head? =
      some (StoreOp.istGet s.jobSpec.Namespace (PipelineImageStream ++ ":" ++ s.config.From)) := by
  rcases h : c.istGet [] s.jobSpec.Namespace (PipelineImageStream ++ ":" ++ s.config.From)
      with e | fromIst
  · simp [OutputImageTagStep.run, h]
  · simp only [OutputImageTagStep.run, h]
    rcases hc : c.istCreate
        [StoreOp.istGet s.jobSpec.Namespace (PipelineImageStream ++ ":" ++ s.config.From)]
        s.nameSpace (s.imageStreamTag fromIst.Image.Name) with e | v
    · by_cases hae : e = StoreErr.alreadyExists
      · subst hae
        obtain ⟨ext, hext⟩ := retryOnConflict_log_extends _
          (runUpdateBody_log_extends s c (s.imageStreamTag fromIst.Image.Name)) defaultRetrySteps
          [StoreOp.istGet s.jobSpec.Namespace (PipelineImageStream ++ ":" ++ s.config.From),
           StoreOp.istCreate s.nameSpace (s.imageStreamTag fromIst.Image.Name)]
        rcases hr : retryOnConflict (s.runUpdateBody c (s.imageStreamTag fromIst.Image.Name))
            defaultRetrySteps
            [StoreOp.istGet s.jobSpec.Namespace (PipelineImageStream ++ ":" ++ s.config.From),
             StoreOp.istCreate s.nameSpace (s.imageStreamTag fromIst.Image.Name)] with ⟨r, log3⟩
        rw [hr] at hext
        simp only at hext
        subst hext
        rcases r with e4 | u <;> simp [hr]
      · simp [hc, hae]
    · simp [hc]

/-- C1: in a non-dry `Run`, (a) a create failing with AlreadyExists is
followed by a fetch of the stored resource, copying only its
`ResourceVersion` onto the desired one, and an update attempt — on
success `Run` succeeds, and the operation log is exactly
resolve-get, create, fetch-get, update; (b) if every update attempt
reports a concurrency conflict, the bounded retry policy is exhausted
and `Run` returns a fatal error naming the update; (c) a create error
other than AlreadyExists makes `Run` return a fatal error naming the
create. -/
theorem C1_run_already_exists_update_retry (s : OutputImageTagStep) (c : Client) :
    (∀ fromIst existing updated,
      c.istGet [] s.jobSpec.Namespace (PipelineImageStream ++ ":" ++ s.config.From)
          = Except.ok fromIst →
      c.istCreate [StoreOp.istGet s.jobSpec.Namespace (PipelineImageStream ++ ":" ++ s.config.From)]
          s.nameSpace (s.imageStreamTag fromIst.Image.Name) = Except.error StoreErr.alreadyExists →
      c.istGet [StoreOp.istGet s.jobSpec.Namespace (PipelineImageStream ++ ":" ++ s.config.From),
                StoreOp.istCreate s.nameSpace (s.imageStreamTag fromIst.Image.Name)]
          (s.imageStreamTag fromIst.Image.Name).ObjectMeta.Namespace
          (s.imageStreamTag fromIst.Image.Name).ObjectMeta.Name = Except.ok existing →
      c.istUpdate [StoreOp.istGet s.jobSpec.Namespace (PipelineImageStream ++ ":" ++ s.config.From),
                   StoreOp.istCreate s.nameSpace (s.imageStreamTag fromIst.Image.Name),
                   StoreOp.istGet (s.imageStreamTag fromIst.Image.Name).ObjectMeta.Namespace
                     (s.imageStreamTag fromIst.Image.Name).ObjectMeta.Name]
          s.nameSpace
          { s.imageStreamTag fromIst.Image.Name with ObjectMeta :=
            { (s.imageStreamTag fromIst.Image.Name).ObjectMeta with
              ResourceVersion := existing.ObjectMeta.ResourceVersion } }
        = Except.ok updated →
      s.run c false = (Except.ok (),
        [StoreOp.istGet s.jobSpec.Namespace (PipelineImageStream ++ ":" ++ s.config.From),
         StoreOp.istCreate s.nameSpace (s.imageStreamTag fromIst.Image.Name),
         StoreOp.istGet (s.imageStreamTag fromIst.Image.Name).ObjectMeta.Namespace
           (s.imageStreamTag fromIst.Image.Name).ObjectMeta.Name,
         StoreOp.istUpdate s.nameSpace
           { s.imageStreamTag fromIst.Image.Name with ObjectMeta :=
             { (s.imageStreamTag fromIst.Image.Name).ObjectMeta with
               ResourceVersion := existing.ObjectMeta.ResourceVersion } }])) ∧
    (∀ fromIst existing,
      c.istGet [] s.jobSpec.Namespace (PipelineImageStream ++ ":" ++ s.config.From)
          = Except.ok fromIst →
      c.istCreate [StoreOp.istGet s.jobSpec.Namespace (PipelineImageStream ++ ":" ++ s.config.From)]
          s.nameSpace (s.imageStreamTag fromIst.Image.Name) = Except.error StoreErr.alreadyExists →
      (∀ log, c.istGet log (s.imageStreamTag fromIst.Image.Name).ObjectMeta.Namespace
          (s.imageStreamTag fromIst.Image.Name).ObjectMeta.Name = Except.ok existing) →
      (∀ log obj, c.istUpdate log s.nameSpace obj = Except.error StoreErr.conflict) →
      (s.run c false).1 =
        Except.error ("could not update output imagestreamtag: " ++ StoreErr.render StoreErr.conflict)) ∧
    (∀ fromIst e,
      c.istGet [] s.jobSpec.Namespace (PipelineImageStream ++ ":" ++ s.config.From)
          = Except.ok fromIst →
      c.istCreate [StoreOp.istGet s.jobSpec.Namespace (PipelineImageStream ++ ":" ++ s.config.From)]
          s.nameSpace (s.imageStreamTag fromIst.Image.Name) = Except.error e →
      e ≠ StoreErr.alreadyExists →
      s.run c false = (Except.error ("could not create output imagestreamtag: " ++ e.render),
        [StoreOp.istGet s.jobSpec.Namespace (PipelineImageStream ++ ":" ++ s.config.From),
         StoreOp.istCreate s.nameSpace (s.imageStreamTag fromIst.Image.Name)])) := by
  refine ⟨?_, ?_, ?_⟩
  · intro fromIst existing updated h1 h2 h3 h4
    simp [OutputImageTagStep.run, h1, h2, defaultRetrySteps, retryOnConflict,
      OutputImageTagStep.runUpdateBody, h3, h4]
  · intro fromIst existing h1 h2 h3 h4
    simp [OutputImageTagStep.run, h1, h2, defaultRetrySteps, retryOnConflict,
      OutputImageTagStep.runUpdateBody, h3, h4]
  · intro fromIst e h1 h2 h3
    simp [OutputImageTagStep.run, h1, h2, h3]

/-- Witness for C1: on `sampleStep`, the update fallback succeeds with
`updateClient`, retry exhaustion is fatal with `conflictClient`, and a
non-AlreadyExists create error is fatal with `badCreateClient`. -/
theorem C1_witness :
    (sampleStep.run updateClient false).1 = Except.ok () ∧
    (sampleStep.run conflictClient false).1 =
      Except.error ("could not update output imagestreamtag: " ++ StoreErr.render StoreErr.conflict) ∧
    (sampleStep.run badCreateClient false).1 =
      Except.error ("could not create output imagestreamtag: " ++
        StoreErr.render (StoreErr.other "quota exceeded")) := by
  refine ⟨?_, ?_, ?_⟩
  · have h := (C1_run_already_exists_update_retry sampleStep updateClient).1 srcIst existingIst
      { sampleStep.imageStreamTag srcIst.Image.Name with ObjectMeta :=
        { (sampleStep.imageStreamTag srcIst.Image.Name).ObjectMeta with
          ResourceVersion := existingIst.ObjectMeta.ResourceVersion } } rfl rfl rfl rfl
    rw [h]
  · exact (C1_run_already_exists_update_retry sampleStep conflictClient).2.1 srcIst existingIst
      rfl rfl (fun _ => rfl) (fun _ _ => rfl)
  · have h := (C1_run_already_exists_update_retry sampleStep badCreateClient).2.2 srcIst
      (StoreErr.other "quota exceeded") rfl rfl (by decide)
    rw [h]

/-- C2 counterexample: the claim asserts of every invocation of `Run`,
dry-run ones included, that (i) its first action is the read resolving
the source identity and (ii) a resolution failure is fatal.  At the
concrete input `sampleStep`/`failingGetClient`/`dry = true` both parts
are false: the resolve read at this input fails (last conjunct), so the
claim demands a fatal error, yet `Run` returns nil; and the first action
is not the resolve read — the operation log is empty, the resolve step
being skipped in dry mode. -/
theorem C2_counterexample :
    (sampleStep.run failingGetClient true).2.head? ≠
      some (StoreOp.istGet sampleStep.jobSpec.Namespace
        (PipelineImageStream ++ ":" ++ sampleStep.config.From)) ∧
    (sampleStep.run failingGetClient true).1 = Except.ok () ∧
    (sampleStep.run failingGetClient true).2 = [] ∧
    failingGetClient.istGet [] sampleStep.jobSpec.Namespace
        (PipelineImageStream ++ ":" ++ sampleStep.config.From)
      = Except.error (StoreErr.other "backing store unreachable") :=
  ⟨by decide, rfl, rfl, rfl⟩

/-- C2 (amended): in a non-dry `Run` the first action is resolving the
source identity — whatever the store answers, the first operation
performed is the `Get` of `pipeline:<from>` in the job namespace — and a
resolution failure is fatal, aborting after that single read; a dry-run
`Run` skips resolution entirely, substitutes the placeholder identity,
renders the desired resource and stops without any store access. -/
theorem C2_run_resolution_order (s : OutputImageTagStep) (c : Client) :
    (∀ e, c.istGet [] s.jobSpec.Namespace (PipelineImageStream ++ ":" ++ s.config.From)
          = Except.error e →
      s.run c false = (Except.error ("could not resolve base image: " ++ e.render),
        [StoreOp.istGet s.jobSpec.Namespace (PipelineImageStream ++ ":" ++ s.config.From)])) ∧
    (s.run c false).2.head? =
      some (StoreOp.istGet s.jobSpec.Namespace (PipelineImageStream ++ ":" ++ s.config.From)) ∧
    s.run c true = (Except.ok (), []) := by
  refine ⟨?_, run_nondry_head s c, rfl⟩
  intro e h
  simp [OutputImageTagStep.run, h]

/-- Witness for C2: on `sampleStep` with `failingGetClient`, a non-dry
`Run` fails fatally on resolution after exactly one store read; with
`updateClient` (where resolution succeeds), the resolve read is still
the first operation performed. -/
theorem C2_witness :
    sampleStep.run failingGetClient false =
      (Except.error ("could not resolve base image: " ++
        StoreErr.render (StoreErr.other "backing store unreachable")),
       [StoreOp.istGet sampleStep.jobSpec.Namespace
          (PipelineImageStream ++ ":" ++ sampleStep.config.From)]) ∧
    (sampleStep.run updateClient false).2.head? =
      some (StoreOp.istGet sampleStep.jobSpec.Namespace
        (PipelineImageStream ++ ":" ++ sampleStep.config.From)) :=
  ⟨(C2_run_resolution_order sampleStep failingGetClient).1 _ rfl,
   (C2_run_resolution_order sampleStep updateClient).2.1⟩

/-- C3: when the target imagestreamtag is absent (the fetch reports
NotFound), `Done` returns `(false, nil)` — no error — and its operation
log is a single read: no mutation of the store. -/
theorem C3_done_absent_is_false_nil (s : OutputImageTagStep) (c : Client)
    (h : c.istGet [] s.nameSpace (s.config.To.Name ++ ":" ++ s.config.To.Tag)
        = Except.error StoreErr.notFound) :
    s.done c = (Except.ok false,
      [StoreOp.istGet s.nameSpace (s.config.To.Name ++ ":" ++ s.config.To.Tag)]) := by
  simp [OutputImageTagStep.done, h]

/-- Witness for C3 on `sampleStep` with `notFoundClient`. -/
theorem C3_witness :
    sampleStep.done notFoundClient = (Except.ok false,
      [StoreOp.istGet sampleStep.nameSpace
        (sampleStep.config.To.Name ++ ":" ++ sampleStep.config.To.Tag)]) :=
  C3_done_absent_is_false_nil sampleStep notFoundClient rfl

/-- C4: when the target exists and the source resolves, `Done` compares
only the `Tag` field of actual against desired (all of `ObjectMeta`,
including the `ResourceVersion` concurrency token, is ignored): equal
tags give `(true, nil)`, different tags give `(false, nil)`, never an
error, and the operation log holds reads only. -/
theorem C4_done_compares_tags_modulo_meta (s : OutputImageTagStep) (c : Client)
    (ist fromIst : ImageStreamTag)
    (h1 : c.istGet [] s.nameSpace (s.config.To.Name ++ ":" ++ s.config.To.Tag)
        = Except.ok ist)
    (h2 : c.istGet [StoreOp.istGet s.nameSpace (s.config.To.Name ++ ":" ++ s.config.To.Tag)]
        s.jobSpec.Namespace (PipelineImageStream ++ ":" ++ s.config.From) = Except.ok fromIst) :
    (ist.Tag = (s.imageStreamTag fromIst.Image.Name).Tag →
      s.done c = (Except.ok true,
        [StoreOp.istGet s.nameSpace (s.config.To.Name ++ ":" ++ s.config.To.Tag),
         StoreOp.istGet s.jobSpec.Namespace (PipelineImageStream ++ ":" ++ s.config.From)])) ∧
    (ist.Tag ≠ (s.imageStreamTag fromIst.Image.Name).Tag →
      s.done c = (Except.ok false,
        [StoreOp.istGet s.nameSpace (s.config.To.Name ++ ":" ++ s.config.To.Tag),
         StoreOp.istGet s.jobSpec.Namespace (PipelineImageStream ++ ":" ++ s.config.From)])) := by
  constructor <;> intro h <;> simp [OutputImageTagStep.done, h1, h2, h]

/-- Witness for C4: `inSyncClient` stores a target whose tag already
matches while its `ResourceVersion` (`"7"`) differs from the freshly
built desired object's (`""`), and `Done` reports true. -/
theorem C4_witness :
    sampleStep.done inSyncClient = (Except.ok true,
      [StoreOp.istGet sampleStep.nameSpace
         (sampleStep.config.To.Name ++ ":" ++ sampleStep.config.To.Tag),
       StoreOp.istGet sampleStep.jobSpec.Namespace
         (PipelineImageStream ++ ":" ++ sampleStep.config.From)]) :=
  (C4_done_compares_tags_modulo_meta sampleStep inSyncClient
    storedTargetIst srcIst rfl rfl).1 rfl

/-- C5: for every configuration and store, a dry-run `Run` performs no
store operation at all — in particular no Create and no Update — and
only renders the desired resource, returning nil. -/
theorem C5_dry_run_never_mutates (s : OutputImageTagStep) (c : Client) :
    s.run c true = (Except.ok (), []) := rfl

/-- C6: `Done` re-resolves the upstream source on every call and
rebuilds the desired resource from the result; with the stored target
unchanged, a store whose source still matches yields true while a store
whose source moved to a different backing image yields false. -/
theorem C6_done_tracks_latest_upstream (s : OutputImageTagStep) (c1 c2 : Client)
    (ist fromIst1 fromIst2 : ImageStreamTag)
    (ha1 : c1.istGet [] s.nameSpace (s.config.To.Name ++ ":" ++ s.config.To.Tag)
        = Except.ok ist)
    (ha2 : c1.istGet [StoreOp.istGet s.nameSpace (s.config.To.Name ++ ":" ++ s.config.To.Tag)]
        s.jobSpec.Namespace (PipelineImageStream ++ ":" ++ s.config.From) = Except.ok fromIst1)
    (hb1 : c2.istGet [] s.nameSpace (s.config.To.Name ++ ":" ++ s.config.To.Tag)
        = Except.ok ist)
    (hb2 : c2.istGet [StoreOp.istGet s.nameSpace (s.config.To.Name ++ ":" ++ s.config.To.Tag)]
        s.jobSpec.Namespace (PipelineImageStream ++ ":" ++ s.config.From) = Except.ok fromIst2)
    (heq : ist.Tag = (s.imageStreamTag fromIst1.Image.Name).Tag)
    (hne : fromIst2.Image.Name ≠ fromIst1.Image.Name) :
    (s.done c1).1 = Except.ok true ∧ (s.done c2).1 = Except.ok false := by
  constructor
  · simp [OutputImageTagStep.done, ha1, ha2, heq]
  · have hne2 : ist.Tag ≠ (s.imageStreamTag fromIst2.Image.Name).Tag := by
      intro hcon
      exact hne (imageStreamTag_Tag_inj s _ _ (heq ▸ hcon).symm)
    simp [OutputImageTagStep.done, hb1, hb2, hne2]

/-- Witness for C6: `Done` is true on `inSyncClient`; after the source
moves to `sha256:def` (`movedSourceClient`, same stored target), it is
false. -/
theorem C6_witness :
    (sampleStep.done inSyncClient).1 = Except.ok true ∧
    (sampleStep.done movedSourceClient).1 = Except.ok false :=
  C6_done_tracks_latest_upstream sampleStep inSyncClient movedSourceClient
    storedTargetIst srcIst srcIst2
    rfl rfl rfl rfl rfl (by decide)

/-- C7: the exported parameter provider prefers the externally-reachable
`PublicDockerImageRepository`, falls back to the internal
`DockerImageRepository`, and with neither populated fails with an error
naming the missing stream; when an export name is configured, `Provides`
exposes exactly this provider under the derived name. -/
theorem C7_provider_precedence (s : OutputImageTagStep) (c : Client) (is : ImageStream)
    (h : c.isGet [] s.nameSpace s.config.To.Name = Except.ok is) :
    (is.Status.PublicDockerImageRepository.length > 0 →
      s.imageParam c = (Except.ok (is.Status.PublicDockerImageRepository ++ ":" ++ s.config.To.Tag),
        [StoreOp.isGet s.nameSpace s.config.To.Name])) ∧
    (is.Status.PublicDockerImageRepository.length = 0 →
     is.Status.DockerImageRepository.length > 0 →
      s.imageParam c = (Except.ok (is.Status.DockerImageRepository ++ ":" ++ s.config.To.Tag),
        [StoreOp.isGet s.nameSpace s.config.To.Name])) ∧
    (is.Status.PublicDockerImageRepository.length = 0 →
     is.Status.DockerImageRepository.length = 0 →
      s.imageParam c = (Except.error
          ("image stream " ++ s.config.To.As ++ " has no accessible image registry value"),
        [StoreOp.isGet s.nameSpace s.config.To.Name])) ∧
    (s.config.To.As.length ≠ 0 →
      s.provides = (some [(s.paramName, s.imageParam)],
        some (StepLink.externalImage s.config.To))) := by
  refine ⟨?_, ?_, ?_, ?_⟩
  · intro hp; simp [OutputImageTagStep.imageParam, h, hp]
  · intro hp hd; simp [OutputImageTagStep.imageParam, h, hp, hd]
  · intro hp hd; simp [OutputImageTagStep.imageParam, h, hp, hd]
  · intro ha; simp [OutputImageTagStep.provides, ha]

/-- Witness for C7: with both addresses set (`regClient`), the provider
returns the external one. -/
theorem C7_witness :
    sampleStep.imageParam regClient =
      (Except.ok (regIs.Status.PublicDockerImageRepository ++ ":" ++ sampleStep.config.To.Tag),
       [StoreOp.isGet sampleStep.nameSpace sampleStep.config.To.Name]) :=
  (C7_provider_precedence sampleStep regClient regIs rfl).1 (by decide)

/-- C8: with no export name configured (`To.As` empty), `Provides`
returns the empty parameter map (Go `nil, nil`). -/
theorem C8_provides_none_without_export (s : OutputImageTagStep)
    (h : s.config.To.As.length = 0) :
    s.provides = (none, none) := by
  simp [OutputImageTagStep.provides, h]

/-- Witness for C8 on `sampleStepNoAs`. -/
theorem C8_witness : sampleStepNoAs.provides = (none, none) :=
  C8_provides_none_without_export sampleStepNoAs rfl

/-- C9: the effective namespace is `To.Namespace` when non-empty and the
job namespace otherwise, and all target-side operations use it: `Done`'s
fetch of the target tag, non-dry `Run`'s create of the desired object
(whose own metadata also carries it), and the provider's image-stream
read. -/
theorem C9_same_effective_namespace (s : OutputImageTagStep) (c : Client) :
    s.nameSpace = (if s.config.To.Namespace.length ≠ 0 then s.config.To.Namespace
      else s.jobSpec.Namespace) ∧
    (s.done c).2.head? =
      some (StoreOp.istGet s.nameSpace (s.config.To.Name ++ ":" ++ s.config.To.Tag)) ∧
    (∀ fromIst, c.istGet [] s.jobSpec.Namespace (PipelineImageStream ++ ":" ++ s.config.From)
        = Except.ok fromIst →
      ∃ rest, (s.run c false).2 =
        StoreOp.istGet s.jobSpec.Namespace (PipelineImageStream ++ ":" ++ s.config.From) ::
        StoreOp.istCreate s.nameSpace (s.imageStreamTag fromIst.Image.Name) :: rest) ∧
    (s.imageParam c).2 = [StoreOp.isGet s.nameSpace s.config.To.Name] := by
  refine ⟨rfl, ?_, ?_, ?_⟩
  · rcases h : c.istGet [] s.nameSpace (s.config.To.Name ++ ":" ++ s.config.To.Tag) with e | ist
    · by_cases hnf : e = StoreErr.notFound <;> simp [OutputImageTagStep.done, h, hnf]
    · rcases h2 : c.istGet [StoreOp.istGet s.nameSpace (s.config.To.Name ++ ":" ++ s.config.To.Tag)]
          s.jobSpec.Namespace (PipelineImageStream ++ ":" ++ s.config.From) with e2 | f
      · simp [OutputImageTagStep.done, h, h2]
      · simp [OutputImageTagStep.done, h, h2]
  · intro fromIst h1
    simp only [OutputImageTagStep.run, h1]
    rcases hc : c.istCreate
        [StoreOp.istGet s.jobSpec.Namespace (PipelineImageStream ++ ":" ++ s.config.From)]
        s.nameSpace (s.imageStreamTag fromIst.Image.Name) with e | v
    · by_cases hae : e = StoreErr.alreadyExists
      · subst hae
        obtain ⟨ext, hext⟩ := retryOnConflict_log_extends _
          (runUpdateBody_log_extends s c (s.imageStreamTag fromIst.Image.Name)) defaultRetrySteps
          [StoreOp.istGet s.jobSpec.Namespace (PipelineImageStream ++ ":" ++ s.config.From),
           StoreOp.istCreate s.nameSpace (s.imageStreamTag fromIst.Image.Name)]
        rcases hr : retryOnConflict (s.runUpdateBody c (s.imageStreamTag fromIst.Image.Name))
            defaultRetrySteps
            [StoreOp.istGet s.jobSpec.Namespace (PipelineImageStream ++ ":" ++ s.config.From),
             StoreOp.istCreate s.nameSpace (s.imageStreamTag fromIst.Image.Name)] with ⟨r, log3⟩
        rw [hr] at hext
        simp only at hext
        subst hext
        rcases r with e4 | u <;> exact ⟨ext, by simp [hr]⟩
      · exact ⟨[], by simp [hc, hae]⟩
    · exact ⟨[], by simp [hc]⟩
  · rcases h : c.isGet [] s.nameSpace s.config.To.Name with e | is
    · simp [OutputImageTagStep.imageParam, h]
    · by_cases hp : is.Status.PublicDockerImageRepository.length > 0
      · simp [OutputImageTagStep.imageParam, h, hp]
      · by_cases hd : is.Status.DockerImageRepository.length > 0 <;>
          simp [OutputImageTagStep.imageParam, h, hp, hd]

/-- Witness for C9 on `sampleStep` (configured target namespace
`target-ns` overriding the job namespace) with `inSyncClient`. -/
theorem C9_witness :
    sampleStep.nameSpace = "target-ns" ∧
    (∃ rest, (sampleStep.run inSyncClient false).2 =
      StoreOp.istGet sampleStep.jobSpec.Namespace
        (PipelineImageStream ++ ":" ++ sampleStep.config.From) ::
      StoreOp.istCreate sampleStep.nameSpace
        (sampleStep.imageStreamTag srcIst.Image.Name) :: rest) ∧
    (sampleStep.imageParam inSyncClient).2 =
      [StoreOp.isGet sampleStep.nameSpace sampleStep.config.To.Name] := by
  obtain ⟨h1, h2, h3, h4⟩ := C9_same_effective_namespace sampleStep inSyncClient
  exact ⟨by rw [h1]; rfl, h3 srcIst rfl, h4⟩

/-- C10: `Inputs` returns `(nil, nil)` for every context and dry-run
flag; it takes no client, so it can neither fail nor touch the store. -/
theorem C10_inputs_nil (s : OutputImageTagStep) (dry : Bool) :
    s.inputs dry = (none, none) := rfl

end OutputImageTag
